import Mathlib

/-!
Verification of the CASDbot message-delivery engine (src/CASDbot.py) against
its natural-language specification.  The Python source is shallowly embedded:
pure helpers (`validate_phone_number`, Python `str.strip`, `re.sub` digit
filtering, `urllib.parse.quote`) become Lean functions on `String`; the
selenium-driven part of `send_single_message` is modelled by an explicit
browser environment (which elements are present, which steps raise) together
with a trace of browser effects; the batch loop of `_send_messages_thread`
becomes a recursion over the record list with a cancellation schedule; driver
teardown (`close_driver`) becomes explicit state passing on a driver state.
-/

namespace CASDbot

/-- Python `re.sub(r'[^\d]', '', s)`: keep only decimal digits. -/
def cleanNumber (s : String) : String :=
  String.mk (s.data.filter Char.isDigit)

/-- `WhatsAppSender.validate_phone_number` (CASDbot.py lines 185-194):
the digit-only normalization must have between 10 and 15 characters. -/
def validate_phone_number (number : String) : Bool :=
  if (cleanNumber number).length < 10 || (cleanNumber number).length > 15 then
    false
  else
    true

/-- The characters removed by Python `str.strip()` (ASCII whitespace). -/
def pyWhitespace (c : Char) : Bool :=
  c = ' ' || c = '\t' || c = '\n' || c = '\r' || c = Char.ofNat 11 || c = Char.ofNat 12

/-- Python `str.strip()`: drop whitespace from both ends. -/
def pyStrip (s : String) : String :=
  String.mk (((s.data.dropWhile pyWhitespace).reverse.dropWhile pyWhitespace).reverse)

/-- Hexadecimal digit (uppercase), as produced by `urllib.parse.quote`. -/
def hexDigit (n : Nat) : Char :=
  if n < 10 then Char.ofNat (48 + n) else Char.ofNat (55 + n)

/-- UTF-8 encoding of one character, as a list of byte values. -/
def utf8Bytes (c : Char) : List Nat :=
  if c.toNat < 128 then [c.toNat]
  else if c.toNat < 2048 then
    [192 + c.toNat / 64, 128 + c.toNat % 64]
  else if c.toNat < 65536 then
    [224 + c.toNat / 4096, 128 + c.toNat / 64 % 64, 128 + c.toNat % 64]
  else
    [240 + c.toNat / 262144, 128 + c.toNat / 4096 % 64,
     128 + c.toNat / 64 % 64, 128 + c.toNat % 64]

/-- Characters `urllib.parse.quote` leaves as-is: unreserved characters plus
the default `safe='/'`. -/
def quoteSafe (c : Char) : Bool :=
  c.isAlpha || c.isDigit || c = '_' || c = '.' || c = '-' || c = '~' || c = '/'

/-- Percent-escape of one byte: `%XY` with uppercase hex. -/
def percentByte (b : Nat) : List Char :=
  ['%', hexDigit (b / 16), hexDigit (b % 16)]

/-- `urllib.parse.quote` applied to one character. -/
def quoteChar (c : Char) : List Char :=
  if quoteSafe c then [c] else (utf8Bytes c).flatMap percentByte

/-- Python `urllib.parse.quote(s)` with the default `safe='/'`. -/
def urlQuote (s : String) : String :=
  String.mk (s.data.flatMap quoteChar)

/-- Python `s.replace("\n", "%0A")`: the transformation the source applies to
the dead variable `message_test` (CASDbot.py line 217). -/
def replaceNewline (s : String) : String :=
  String.mk (s.data.flatMap (fun c => if c = '\n' then ['%', '0', 'A'] else [c]))

/-- Python `s[:50]`: first 50 characters of a string. -/
def strTake (n : Nat) (s : String) : String :=
  String.mk (s.data.take n)

/-- The status string written on success (`'Mensagem Enviada'`). -/
def SENT_STATUS : String := "Mensagem Enviada"

/-- The status a freshly loaded record carries (`load_excel` initializes the
`Status` column to the empty string); this plays the role of `Pending`. -/
def PENDING : String := ""

/-- Exceptions the selenium layer can raise inside `send_single_message`:
`TimeoutException`, `WebDriverException` (with message), or any other
exception (with type name and message). -/
inductive BrowserExc where
  | timeoutExc : BrowserExc
  | webDriverExc : String → BrowserExc
  | otherExc : String → String → BrowserExc
deriving DecidableEq

/-- A simulated WhatsApp Web input surface, recording which of the three
locator targets the specification talks about would be available: a
composer editable region, an accessibly-labeled send control, and the
`span[data-icon='send']` icon element (the only one the code looks for). -/
structure InputSurface where
  composerPresent : Bool
  labeledSendPresent : Bool
  iconSendPresent : Bool
deriving DecidableEq

/-- The environment of one delivery attempt: the simulated input surface,
plus which automation step (navigation / click) raises which exception.
`navExc = none` means `driver.get` returns normally; the element wait
raises `TimeoutException` exactly when the icon element is absent. -/
structure BrowserEnv where
  surface : InputSurface
  navExc : Option BrowserExc
  clickExc : Option BrowserExc
deriving DecidableEq

/-- Observable browser interactions performed by one delivery attempt. -/
inductive Effect where
  | navigate : String → Effect
  | waitIconClickable : Effect
  | clickIconSend : Effect
deriving DecidableEq

/-- The result dictionary of `send_single_message`. -/
structure SendResult where
  success : Bool
  status : String
  error : Option String
deriving DecidableEq

/-- The exception handlers of `send_single_message` (CASDbot.py lines
247-260): `TimeoutException` first, then `WebDriverException`, then any
other exception; the latter two keep the first 50 characters of the
exception message in the status. -/
def classify : BrowserExc → SendResult
  | BrowserExc.timeoutExc =>
      { success := false, status := "Timeout - Página não carregou",
        error := some "TimeoutException" }
  | BrowserExc.webDriverExc msg =>
      { success := false, status := "Erro do navegador: " ++ strTake 50 msg,
        error := some "WebDriverException" }
  | BrowserExc.otherExc name msg =>
      { success := false, status := "Erro inesperado: " ++ strTake 50 msg,
        error := some name }

/-- The browser phase of `send_single_message` (lines 226-241): navigate to
the url, wait (up to `WAIT_TIMEOUT`) for the element marked with
`data-icon='send'` to be clickable, then click it.  Returns the interaction
trace together with the exception raised, if any. -/
def browse (env : BrowserEnv) (url : String) : List Effect × Option BrowserExc :=
  match env.navExc with
  | some e => ([Effect.navigate url], some e)
  | none =>
    if env.surface.iconSendPresent then
      match env.clickExc with
      | some e => ([Effect.navigate url, Effect.waitIconClickable,
                    Effect.clickIconSend], some e)
      | none => ([Effect.navigate url, Effect.waitIconClickable,
                  Effect.clickIconSend], none)
    else
      ([Effect.navigate url, Effect.waitIconClickable], some BrowserExc.timeoutExc)

/-- `WhatsAppSender.send_single_message` (lines 196-262), returning the
result dictionary together with the trace of browser interactions. -/
def send_single_message (env : BrowserEnv) (number message : String) :
    SendResult × List Effect :=
  if validate_phone_number number = false then
    ({ success := false, status := "Número inválido", error := none }, [])
  else
    let clean_message := pyStrip message
    if clean_message = "" then
      ({ success := false, status := "Mensagem vazia", error := none }, [])
    else
      let message_test := replaceNewline message
      let message_encoded := urlQuote clean_message
      let url := "https://web.whatsapp.com/send?phone=" ++ number ++
        "&text=" ++ message_encoded
      match browse env url with
      | (effects, none) =>
          ({ success := true, status := SENT_STATUS, error := none }, effects)
      | (effects, some e) => (classify e, effects)

/-- The url `send_single_message` actually navigates to: raw number, and
percent-encoding of the trimmed message. -/
def codeUrl (number message : String) : String :=
  "https://web.whatsapp.com/send?phone=" ++ number ++ "&text=" ++
    urlQuote (pyStrip message)

/-- Formalisation of the url the specification describes (refinement target
for claim C1, from the spec words, not from the source): phone is the
digit-only normalization of the number, and the text is percent-encoded
after every literal newline has first been replaced by `%0A`. -/
def specUrl (number message : String) : String :=
  "https://web.whatsapp.com/send?phone=" ++ cleanNumber number ++ "&text=" ++
    urlQuote (replaceNewline message)

/-- The exception raised by the browser phase (if any), as a function of the
environment alone. -/
def raisedExc (env : BrowserEnv) : Option BrowserExc :=
  match env.navExc with
  | some e => some e
  | none =>
    if env.surface.iconSendPresent then env.clickExc
    else some BrowserExc.timeoutExc

/-- Environment in which every step succeeds. -/
def envOk : BrowserEnv :=
  { surface := { composerPresent := true, labeledSendPresent := true,
                 iconSendPresent := true },
    navExc := none, clickExc := none }

/-- Environment in which only the labeled send control (strategy (b) of the
specification) is available: no composer, no icon-marked element. -/
def envBOnly : BrowserEnv :=
  { surface := { composerPresent := false, labeledSendPresent := true,
                 iconSendPresent := false },
    navExc := none, clickExc := none }

/-- Environment in which navigation raises a `WebDriverException`. -/
def envWde : BrowserEnv :=
  { surface := { composerPresent := true, labeledSendPresent := true,
                 iconSendPresent := true },
    navExc := some (BrowserExc.webDriverExc "boom"), clickExc := none }

/-- One row of the loaded spreadsheet: `Número`, `Mensagem`, `Status`. -/
structure Record where
  number : String
  message : String
  status : String
deriving DecidableEq

/-- The ephemeral aggregate of one batch run: the updated rows and the
counters `success_count`, `error_count`, `current_message` of
`_send_messages_thread`. -/
structure BatchRun where
  out : List Record
  success_count : Nat
  error_count : Nat
  attempted : Nat
deriving DecidableEq

/-- The loop of `_send_messages_thread` (CASDbot.py lines 543-562), started
at iteration index `i`: at each record boundary the cancellation flag is
read (`cancelled i` is its value at that check); if set, the loop breaks and
the remaining rows are left untouched; otherwise the record is sent in the
per-record environment `envOf i`, its returned status is written into the
row, and exactly one of the two counters is incremented. -/
def runFrom (envOf : Nat → BrowserEnv) (cancelled : Nat → Bool) :
    Nat → List Record → BatchRun
  | _, [] => { out := [], success_count := 0, error_count := 0, attempted := 0 }
  | i, r :: rs =>
    if cancelled i then
      { out := r :: rs, success_count := 0, error_count := 0, attempted := 0 }
    else
      let result := (send_single_message (envOf i) r.number r.message).1
      let rest := runFrom envOf cancelled (i + 1) rs
      { out := { r with status := result.status } :: rest.out,
        success_count := rest.success_count + (if result.success then 1 else 0),
        error_count := rest.error_count + (if result.success then 0 else 1),
        attempted := rest.attempted + 1 }

/-- The whole batch loop, from the first record. -/
def run_batch (envOf : Nat → BrowserEnv) (cancelled : Nat → Bool)
    (records : List Record) : BatchRun :=
  runFrom envOf cancelled 0 records

/-- The state of the `WhatsAppSender` driver handle: whether `self.driver`
is set, and how many times `driver.quit()` has been invoked. -/
structure DriverState where
  driver : Bool
  quitCount : Nat
deriving DecidableEq

/-- `self.driver.quit()`: the invocation is counted; it raises when
`quitFails` is set (first component is the raised exception, if any). -/
def driver_quit (quitFails : Bool) (st : DriverState) :
    Option String × DriverState :=
  (if quitFails then some "quit failed" else none,
   { st with quitCount := st.quitCount + 1 })

/-- `WhatsAppSender.close_driver` (lines 264-273): if a driver is present,
try `quit()`, swallow (log) any exception it raises, and in all cases clear
the handle in the `finally` block.  The function is total: no exception is
ever re-raised to the caller. -/
def close_driver (quitFails : Bool) (st : DriverState) : DriverState :=
  if st.driver then
    { (driver_quit quitFails st).2 with driver := false }
  else st

/-- The failure points of one `_send_messages_thread` run: whether
`setup_driver` succeeds, an unhandled exception raised during the batch loop
(e.g. from the progress dialog), an exception raised after the in-`try`
teardown, and whether `driver.quit()` itself fails. -/
structure ThreadEnv where
  setupOk : Bool
  loopExc : Option String
  epilogueExc : Option String
  quitFails : Bool
deriving DecidableEq

/-- Outcome of one `_send_messages_thread` run. -/
structure ThreadResult where
  driverState : DriverState
  shownError : Option String
  batch : Option BatchRun
deriving DecidableEq

/-- `CASDbotGUI._send_messages_thread` (lines 528-581): the `try` block
creates the driver, runs the batch loop, calls `close_driver` and then the
epilogue (dialog close + summary); the `except` block calls `close_driver`
again and surfaces the error message.  `close_driver` is a no-op when the
handle has already been cleared. -/
def send_messages_thread (tenv : ThreadEnv) (envOf : Nat → BrowserEnv)
    (cancelled : Nat → Bool) (records : List Record) (st : DriverState) :
    ThreadResult :=
  let tryRes : Except (String × DriverState × Option BatchRun)
      (DriverState × BatchRun) :=
    if tenv.setupOk = false then
      Except.error ("Falha ao inicializar navegador", st, none)
    else
      let st1 := { st with driver := true }
      match tenv.loopExc with
      | some msg => Except.error (msg, st1, none)
      | none =>
        let batch := run_batch envOf cancelled records
        let st2 := close_driver tenv.quitFails st1
        match tenv.epilogueExc with
        | some msg => Except.error (msg, st2, some batch)
        | none => Except.ok (st2, batch)
  match tryRes with
  | Except.ok (st2, batch) =>
      { driverState := st2, shownError := none, batch := some batch }
  | Except.error (msg, stE, b) =>
      { driverState := close_driver tenv.quitFails stE,
        shownError := some msg, batch := b }

/-- `r.status = SENT_STATUS`, as a Boolean predicate on rows. -/
def isSent (r : Record) : Bool := decide (r.status = SENT_STATUS)

/-- Two freshly loaded demonstration rows. -/
def demoRecords : List Record :=
  [ { number := "11988887777", message := "ola", status := PENDING },
    { number := "11988887778", message := "oi", status := PENDING } ]

/-- A row whose status is already `'Mensagem Enviada'` when a run starts
(possible when the loaded file carries a `Status` column from an earlier
export, which `load_excel` keeps). -/
def preSentRecord : Record :=
  { number := "11988887777", message := "ola", status := SENT_STATUS }

/-! ## Helper lemmas -/

theorem str_length_append (a b : String) :
    (a ++ b).length = a.length + b.length := by
  cases a with
  | mk as =>
    cases b with
    | mk bs =>
      show (String.mk (as ++ bs)).length = as.length + bs.length
      simp [String.length]

theorem append_ne_of_shorter (a b t : String) (h : t.length < a.length) :
    a ++ b ≠ t := by
  intro he
  have hl := congrArg String.length he
  rw [str_length_append] at hl
  omega

theorem classify_success (e : BrowserExc) : (classify e).success = false := by
  cases e <;> rfl

theorem classify_status_ne (e : BrowserExc) (t : String)
    (ht : t ≠ "Timeout - Página não carregou") (hlen : t.length < 17) :
    (classify e).status ≠ t := by
  cases e with
  | timeoutExc => exact fun he => ht he.symm
  | webDriverExc msg =>
    refine append_ne_of_shorter "Erro do navegador: " (strTake 50 msg) t ?_
    have : ("Erro do navegador: " : String).length = 19 := by decide
    omega
  | otherExc name msg =>
    refine append_ne_of_shorter "Erro inesperado: " (strTake 50 msg) t ?_
    have : ("Erro inesperado: " : String).length = 17 := by decide
    omega

theorem browse_snd (env : BrowserEnv) (url : String) :
    (browse env url).2 = raisedExc env := by
  rcases env with ⟨⟨a, b, ic⟩, navE, clkE⟩
  cases navE <;> cases clkE <;> cases ic <;> rfl

theorem browse_head (env : BrowserEnv) (url : String) :
    (browse env url).1.head? = some (Effect.navigate url) := by
  rcases env with ⟨⟨a, b, ic⟩, navE, clkE⟩
  cases navE <;> cases clkE <;> cases ic <;> rfl

theorem browse_icon_only (a b c d ic : Bool) (navE clkE : Option BrowserExc)
    (url : String) :
    browse ⟨⟨a, b, ic⟩, navE, clkE⟩ url = browse ⟨⟨c, d, ic⟩, navE, clkE⟩ url := by
  cases navE <;> cases clkE <;> cases ic <;> rfl

theorem send_invalid (env : BrowserEnv) (n m : String)
    (h : validate_phone_number n = false) :
    send_single_message env n m =
      ({ success := false, status := "Número inválido", error := none }, []) := by
  simp [send_single_message, h]

theorem send_empty (env : BrowserEnv) (n m : String)
    (hn : validate_phone_number n = true) (hm : pyStrip m = "") :
    send_single_message env n m =
      ({ success := false, status := "Mensagem vazia", error := none }, []) := by
  simp [send_single_message, hn, hm]

theorem send_unfold_valid (env : BrowserEnv) (n m : String)
    (hn : validate_phone_number n = true) (hm : pyStrip m ≠ "") :
    send_single_message env n m =
      ((match (browse env (codeUrl n m)).2 with
        | none => { success := true, status := SENT_STATUS, error := none }
        | some e => classify e),
       (browse env (codeUrl n m)).1) := by
  rcases env with ⟨⟨a, b, ic⟩, navE, clkE⟩
  rcases navE with _ | e
  · cases ic
    · simp [send_single_message, browse, hn, hm, codeUrl]
    · rcases clkE with _ | e <;> simp [send_single_message, browse, hn, hm, codeUrl]
  · simp [send_single_message, browse, hn, hm, codeUrl]

theorem send_fst_valid (env : BrowserEnv) (n m : String)
    (hn : validate_phone_number n = true) (hm : pyStrip m ≠ "") :
    (send_single_message env n m).1 =
      (match raisedExc env with
       | none => { success := true, status := SENT_STATUS, error := none }
       | some e => classify e) := by
  rw [send_unfold_valid env n m hn hm, browse_snd]

theorem send_snd_valid (env : BrowserEnv) (n m : String)
    (hn : validate_phone_number n = true) (hm : pyStrip m ≠ "") :
    (send_single_message env n m).2 = (browse env (codeUrl n m)).1 := by
  rw [send_unfold_valid env n m hn hm]

theorem validate_eq_false (n : String) (h : ¬ validate_phone_number n = true) :
    validate_phone_number n = false := by
  cases hb : validate_phone_number n
  · rfl
  · exact absurd hb h

theorem send_status_ne_pending (env : BrowserEnv) (n m : String) :
    (send_single_message env n m).1.status ≠ PENDING := by
  by_cases hn : validate_phone_number n = true
  · by_cases hm : pyStrip m = ""
    · rw [send_empty env n m hn hm]; decide
    · rw [send_fst_valid env n m hn hm]
      rcases raisedExc env with _ | e
      · decide
      · exact classify_status_ne e PENDING (by decide) (by decide)
  · rw [send_invalid env n m (validate_eq_false n hn)]; decide

theorem send_success_iff_sent (env : BrowserEnv) (n m : String) :
    (send_single_message env n m).1.success = true ↔
      (send_single_message env n m).1.status = SENT_STATUS := by
  by_cases hn : validate_phone_number n = true
  · by_cases hm : pyStrip m = ""
    · rw [send_empty env n m hn hm]; decide
    · rw [send_fst_valid env n m hn hm]
      rcases raisedExc env with _ | e
      · decide
      · show (classify e).success = true ↔ (classify e).status = SENT_STATUS
        rw [classify_success]
        constructor
        · intro h; cases h
        · intro h
          exact absurd h (classify_status_ne e SENT_STATUS (by decide) (by decide))
  · rw [send_invalid env n m (validate_eq_false n hn)]; decide

theorem runFrom_cancelled (envOf : Nat → BrowserEnv) (c : Nat → Bool) (i : Nat)
    (rs : List Record) (h : c i = true) :
    runFrom envOf c i rs =
      { out := rs, success_count := 0, error_count := 0, attempted := 0 } := by
  cases rs with
  | nil => rfl
  | cons r rs => simp [runFrom, h]

theorem filter_isSent_nil (l : List Record)
    (h : ∀ r ∈ l, r.status ≠ SENT_STATUS) : l.filter isSent = [] := by
  induction l with
  | nil => rfl
  | cons r rs ih =>
    have hr : isSent r = false := by
      simp only [isSent, decide_eq_false_iff_not]
      exact h r (List.mem_cons_self r rs)
    rw [List.filter_cons_of_neg (by simp [hr])]
    exact ih (fun x hx => h x (List.mem_cons_of_mem r hx))

theorem runFrom_cancel_at (envOf : Nat → BrowserEnv) (nn : Nat)
    (rs : List Record) :
    ∀ i : Nat,
      (∀ r ∈ (runFrom envOf (fun j => decide (nn ≤ j)) i rs).out.take (nn - i),
        r.status ≠ PENDING) ∧
      (runFrom envOf (fun j => decide (nn ≤ j)) i rs).out.drop (nn - i) =
        rs.drop (nn - i) := by
  induction rs with
  | nil =>
    intro i
    constructor
    · intro r hr; simp [runFrom] at hr
    · simp [runFrom]
  | cons r rs ih =>
    intro i
    by_cases hc : nn ≤ i
    · rw [runFrom_cancelled envOf _ i (r :: rs) (by simpa using hc)]
      have hz : nn - i = 0 := Nat.sub_eq_zero_of_le hc
      rw [hz]
      exact ⟨by intro x hx; simp at hx, rfl⟩
    · have hcf : (decide (nn ≤ i)) = false := by simpa using hc
      have hni : nn - i = (nn - (i + 1)) + 1 := by omega
      obtain ⟨ih1, ih2⟩ := ih (i + 1)
      constructor
      · intro x hx
        rw [hni] at hx
        simp only [runFrom, hcf, Bool.false_eq_true, if_false,
          List.take_succ_cons] at hx
        rcases List.mem_cons.mp hx with hx | hx
        · rw [hx]
          exact send_status_ne_pending (envOf i) r.number r.message
        · exact ih1 x hx
      · rw [hni]
        simp only [runFrom, hcf, Bool.false_eq_true, if_false,
          List.drop_succ_cons]
        exact ih2

theorem runFrom_counts (envOf : Nat → BrowserEnv) (c : Nat → Bool)
    (rs : List Record) :
    ∀ i : Nat, (∀ r ∈ rs, r.status ≠ SENT_STATUS) →
      (runFrom envOf c i rs).success_count =
        ((runFrom envOf c i rs).out.filter isSent).length ∧
      (runFrom envOf c i rs).success_count + (runFrom envOf c i rs).error_count =
        (runFrom envOf c i rs).attempted := by
  induction rs with
  | nil => intro i h; exact ⟨rfl, rfl⟩
  | cons r rs ih =>
    intro i h
    have hrest : ∀ x ∈ rs, x.status ≠ SENT_STATUS :=
      fun x hx => h x (List.mem_cons_of_mem r hx)
    by_cases hc : c i = true
    · rw [runFrom_cancelled envOf c i (r :: rs) hc]
      refine ⟨?_, rfl⟩
      rw [filter_isSent_nil (r :: rs) h]
      rfl
    · have hcf : c i = false := by
        cases hb : c i
        · rfl
        · exact absurd hb hc
      obtain ⟨ih1, ih2⟩ := ih (i + 1) hrest
      constructor
      · simp only [runFrom, hcf, Bool.false_eq_true, if_false]
        rcases hs : (send_single_message (envOf i) r.number r.message).1.success with _ | _
        · have hns : (send_single_message (envOf i) r.number r.message).1.status ≠
              SENT_STATUS := by
            intro hst
            have hmp := (send_success_iff_sent (envOf i) r.number r.message).mpr hst
            rw [hs] at hmp
            cases hmp
          have hflt : isSent { r with status :=
              (send_single_message (envOf i) r.number r.message).1.status } = false := by
            simp only [isSent, decide_eq_false_iff_not]
            exact hns
          simp only [hs, List.filter_cons, hflt, Bool.false_eq_true, if_false]
          omega
        · have hst : (send_single_message (envOf i) r.number r.message).1.status =
              SENT_STATUS :=
            (send_success_iff_sent (envOf i) r.number r.message).mp hs
          have hflt : isSent { r with status :=
              (send_single_message (envOf i) r.number r.message).1.status } = true := by
            simp only [isSent, decide_eq_true_eq]
            exact hst
          simp only [hs, List.filter_cons, hflt, if_true, List.length_cons]
          omega
      · simp only [runFrom, hcf, Bool.false_eq_true, if_false]
        rcases hs : (send_single_message (envOf i) r.number r.message).1.success with _ | _ <;>
          simp only [hs, Bool.false_eq_true, if_false, if_true] <;> omega

theorem runFrom_frame (envOf : Nat → BrowserEnv) (c : Nat → Bool)
    (rs : List Record) :
    ∀ i : Nat,
      (runFrom envOf c i rs).out.length = rs.length ∧
      ∀ (j : Nat) (rr : Record), rs[j]? = some rr →
        (runFrom envOf c i rs).out[j]? = some rr ∨
        (runFrom envOf c i rs).out[j]? =
          some { rr with status :=
            (send_single_message (envOf (i + j)) rr.number rr.message).1.status } := by
  induction rs with
  | nil =>
    intro i
    refine ⟨rfl, ?_⟩
    intro j rr h
    simp at h
  | cons r rs ih =>
    intro i
    by_cases hc : c i = true
    · rw [runFrom_cancelled envOf c i (r :: rs) hc]
      exact ⟨rfl, fun j x hj => Or.inl hj⟩
    · have hcf : c i = false := by
        cases hb : c i
        · rfl
        · exact absurd hb hc
      obtain ⟨ihl, ihg⟩ := ih (i + 1)
      constructor
      · simp only [runFrom, hcf, Bool.false_eq_true, if_false, List.length_cons]
        omega
      · intro j x hj
        cases j with
        | zero =>
          simp only [List.getElem?_cons_zero, Option.some.injEq] at hj
          right
          simp only [runFrom, hcf, Bool.false_eq_true, if_false,
            List.getElem?_cons_zero, Option.some.injEq, Nat.add_zero]
          rw [hj]
        | succ j =>
          simp only [List.getElem?_cons_succ] at hj
          have := ihg j x hj
          simp only [runFrom, hcf, Bool.false_eq_true, if_false,
            List.getElem?_cons_succ]
          have harith : i + 1 + j = i + (j + 1) := by omega
          rw [harith] at this
          exact this

/-! ## Claim theorems -/

/-- C1, counterexample: for the valid record with number `"(11) 98888-7777"`
and message `"a\nb"`, the navigation URL actually loaded is not the URL the
claim describes (digit-normalized phone, text percent-encoded after a
literal `\n → %0A` replacement): the code puts the raw number in the URL and
percent-encodes the trimmed message directly, so the claimed URL would
contain `phone=11988887777` and `text=a%250Ab` while the loaded one contains
`phone=(11) 98888-7777` and `text=a%0Ab`. -/
theorem C1_counterexample :
    validate_phone_number "(11) 98888-7777" = true ∧
    pyStrip "a\nb" ≠ "" ∧
    (send_single_message envOk "(11) 98888-7777" "a\nb").2.head? ≠
      some (Effect.navigate (specUrl "(11) 98888-7777" "a\nb")) := by
  decide

/-- C1 (amended): for every record that passes validation, the first browser
interaction of the delivery attempt is navigation to
`https://web.whatsapp.com/send?phone=<p>&text=<t>` where `<p>` is the
record's number exactly as given (not digit-normalized) and `<t>` is the
percent-encoding of the whitespace-trimmed message (the percent-encoder
itself maps each newline to `%0A`; the explicit `\n → %0A` replacement in
the source is computed into an unused variable and never reaches the URL). -/
theorem C1_url (env : BrowserEnv) (n m : String)
    (hn : validate_phone_number n = true) (hm : pyStrip m ≠ "") :
    (send_single_message env n m).2.head? =
      some (Effect.navigate (codeUrl n m)) := by
  rw [send_snd_valid env n m hn hm]
  exact browse_head env (codeUrl n m)

/-- C1, witness: the amended theorem at a concrete valid record. -/
theorem C1_witness :
    (send_single_message envOk "11988887777" "ola").2.head? =
      some (Effect.navigate (codeUrl "11988887777" "ola")) :=
  C1_url envOk "11988887777" "ola" (by decide) (by decide)

/-- C2, counterexample: in the simulated input surface where strategy (a)
(the composer) is absent but strategy (b) (the labeled send control) is
present, the attempt does not end in `Sent`: it ends in the timeout status,
because the code only ever waits for the icon-marked element. -/
theorem C2_counterexample :
    envBOnly.surface.composerPresent = false ∧
    envBOnly.surface.labeledSendPresent = true ∧
    (send_single_message envBOnly "11988887777" "ola").1.status ≠ SENT_STATUS ∧
    (send_single_message envBOnly "11988887777" "ola").1.status =
      "Timeout - Página não carregou" := by
  decide

/-- C2 (amended): the acquire-input-surface phase uses exactly one locator
strategy — a single bounded wait for the `data-icon='send'` element followed
by a direct click.  The outcome of a valid attempt is entirely independent
of whether a composer or a labeled send control is present, and with no
step exceptions the attempt ends in `Sent` precisely when the icon element
is present. -/
theorem C2_single_strategy (a b c d ic : Bool) (navE clkE : Option BrowserExc)
    (n m : String)
    (hn : validate_phone_number n = true) (hm : pyStrip m ≠ "") :
    send_single_message ⟨⟨a, b, ic⟩, navE, clkE⟩ n m =
      send_single_message ⟨⟨c, d, ic⟩, navE, clkE⟩ n m ∧
    ((send_single_message ⟨⟨a, b, ic⟩, none, none⟩ n m).1.status = SENT_STATUS ↔
      ic = true) := by
  constructor
  · rw [send_unfold_valid _ n m hn hm, send_unfold_valid _ n m hn hm,
      browse_icon_only a b c d ic navE clkE]
  · cases ic
    · rw [send_fst_valid _ n m hn hm]
      show (classify BrowserExc.timeoutExc).status = SENT_STATUS ↔ false = true
      constructor
      · intro h
        exact absurd h (by decide)
      · intro h
        cases h
    · rw [send_fst_valid _ n m hn hm]
      show SENT_STATUS = SENT_STATUS ↔ true = true
      exact ⟨fun _ => rfl, fun _ => rfl⟩

/-- C2, witness: the amended theorem at the (a)-absent, (b)-present surface. -/
theorem C2_witness :
    (send_single_message ⟨⟨false, true, false⟩, none, none⟩ "11988887777"
      "ola").1.status = SENT_STATUS ↔ false = true :=
  (C2_single_strategy false true true true false none none "11988887777" "ola"
    (by decide) (by decide)).2

/-- C3: during the navigate/submit/confirm phase of a valid delivery
attempt, a raised `TimeoutException` yields the timeout status, a
`WebDriverException` yields the browser-error status, and any other
exception yields the unexpected-error status whose diagnostic text is the
first 50 characters of the exception message; the outcome is always a
returned `SendResult` value (`send_single_message` is a total function), so
no exception escapes the attempt. -/
theorem C3_classification (env : BrowserEnv) (n m : String) (e : BrowserExc)
    (wmsg tname tmsg : String)
    (hn : validate_phone_number n = true) (hm : pyStrip m ≠ "")
    (he : raisedExc env = some e) :
    (send_single_message env n m).1 = classify e ∧
    (classify e).success = false ∧
    (classify BrowserExc.timeoutExc).status = "Timeout - Página não carregou" ∧
    (classify (BrowserExc.webDriverExc wmsg)).status =
      "Erro do navegador: " ++ strTake 50 wmsg ∧
    (classify (BrowserExc.otherExc tname tmsg)).status =
      "Erro inesperado: " ++ strTake 50 tmsg ∧
    (strTake 50 tmsg).length ≤ 50 := by
  refine ⟨?_, classify_success e, rfl, rfl, rfl, ?_⟩
  · rw [send_fst_valid env n m hn hm, he]
  · have h50 : (tmsg.data.take 50).length ≤ 50 := by
      rw [List.length_take]
      exact Nat.min_le_left _ _
    exact h50

/-- C3, witness: a navigation-time `WebDriverException` at a valid record. -/
theorem C3_witness :
    (send_single_message envWde "11988887777" "ola").1 =
      classify (BrowserExc.webDriverExc "boom") :=
  (C3_classification envWde "11988887777" "ola" (BrowserExc.webDriverExc "boom")
    "w" "T" "o" (by decide) (by decide) (by decide)).1

/-- C4: the batch loop reads the cancellation flag only at record
boundaries.  If the flag becomes set exactly between record `k` and record
`k+1` (schedule `i ↦ decide (k+1 ≤ i)` for the value read at boundary `i`),
then on a freshly loaded store every record of the first `k+1` rows holds a
terminal (non-Pending) status, and rows `k+1..end` are returned exactly as
loaded — in particular they remain Pending; the in-flight record's send
always completes before the flag is consulted again. -/
theorem C4_cancellation (envOf : Nat → BrowserEnv) (records : List Record)
    (k : Nat) (hpend : ∀ r ∈ records, r.status = PENDING) :
    (∀ r ∈ (run_batch envOf (fun i => decide (k + 1 ≤ i)) records).out.take (k + 1),
        r.status ≠ PENDING) ∧
    (run_batch envOf (fun i => decide (k + 1 ≤ i)) records).out.drop (k + 1) =
      records.drop (k + 1) ∧
    (∀ r ∈ (run_batch envOf (fun i => decide (k + 1 ≤ i)) records).out.drop (k + 1),
        r.status = PENDING) := by
  obtain ⟨h1, h2⟩ := runFrom_cancel_at envOf (k + 1) records 0
  rw [Nat.sub_zero] at h1 h2
  refine ⟨h1, h2, ?_⟩
  intro r hr
  simp only [run_batch] at hr
  rw [h2] at hr
  exact hpend r (List.drop_subset _ _ hr)

/-- C4, witness: cancellation after record 0 leaves the tail as loaded. -/
theorem C4_witness :
    (run_batch (fun _ => envOk) (fun i => decide (0 + 1 ≤ i))
      demoRecords).out.drop (0 + 1) = demoRecords.drop (0 + 1) :=
  (C4_cancellation (fun _ => envOk) demoRecords 0 (by decide)).2.1

/-- C5: a batch run neither reorders nor drops rows (the output has the same
length, and row `j` of the output corresponds to row `j` of the input), and
each output row is its input row with at most the status changed — either
untouched, or overwritten exactly once with the status returned by that
row's single delivery attempt; number and message are never mutated. -/
theorem C5_frame (envOf : Nat → BrowserEnv) (cancelled : Nat → Bool)
    (records : List Record) :
    (run_batch envOf cancelled records).out.length = records.length ∧
    ∀ (j : Nat) (r : Record), records[j]? = some r →
      (run_batch envOf cancelled records).out[j]? = some r ∨
      (run_batch envOf cancelled records).out[j]? =
        some { r with status :=
          (send_single_message (envOf j) r.number r.message).1.status } := by
  obtain ⟨h1, h2⟩ := runFrom_frame envOf cancelled records 0
  refine ⟨h1, ?_⟩
  intro j r hj
  have hg := h2 j r hj
  simpa using hg

/-- C5, witness: the row count is preserved on a concrete run. -/
theorem C5_witness :
    (run_batch (fun _ => envOk) (fun _ => false) demoRecords).out.length =
      demoRecords.length :=
  (C5_frame (fun _ => envOk) (fun _ => false) demoRecords).1

/-- C6: over every path of `_send_messages_thread` — normal completion
(which includes cooperative cancellation), an unhandled error during the
loop, a failure after the in-`try` teardown, and a `setup_driver` failure —
the driver handle ends cleared and `driver.quit()` is invoked exactly once
whenever a driver was created (zero times when setup failed and no session
ever existed); and a failure raised by `quit()` during the release is
swallowed: it never changes the error surfaced to the caller
(`close_driver` is a total function). -/
theorem C6_teardown_once (tenv : ThreadEnv) (envOf : Nat → BrowserEnv)
    (cancelled : Nat → Bool) (records : List Record) (st : DriverState)
    (hdrv : st.driver = false) (hq : st.quitCount = 0) :
    (send_messages_thread tenv envOf cancelled records st).driverState.driver =
      false ∧
    (send_messages_thread tenv envOf cancelled records st).driverState.quitCount =
      (if tenv.setupOk then 1 else 0) ∧
    (send_messages_thread { tenv with quitFails := true } envOf cancelled records
        st).shownError =
      (send_messages_thread { tenv with quitFails := false } envOf cancelled
        records st).shownError := by
  rcases st with ⟨d, q⟩
  subst hdrv
  subst hq
  rcases tenv with ⟨sOk, lE, eE, qF⟩
  cases sOk <;> rcases lE with _ | lmsg <;> rcases eE with _ | emsg <;>
    cases qF <;> exact ⟨rfl, rfl, rfl⟩

/-- C6, witness: a successful run with a failing `quit()` still tears down
exactly once. -/
theorem C6_witness :
    (send_messages_thread ⟨true, none, none, true⟩ (fun _ => envOk)
      (fun _ => false) demoRecords ⟨false, 0⟩).driverState.quitCount = 1 :=
  (C6_teardown_once ⟨true, none, none, true⟩ (fun _ => envOk) (fun _ => false)
    demoRecords ⟨false, 0⟩ rfl rfl).2.1

/-- C7: for every input string, phone validation succeeds exactly when the
digit-only normalization has between 10 and 15 characters. -/
theorem C7_validate (n : String) :
    validate_phone_number n = true ↔
      10 ≤ (cleanNumber n).length ∧ (cleanNumber n).length ≤ 15 := by
  unfold validate_phone_number
  by_cases h : ((cleanNumber n).length < 10 || (cleanNumber n).length > 15) = true
  · rw [if_pos h]
    simp only [Bool.or_eq_true, decide_eq_true_eq] at h
    constructor
    · intro hf
      cases hf
    · intro hc
      exfalso
      rcases h with h | h <;> omega
  · rw [if_neg h]
    simp only [Bool.or_eq_true, decide_eq_true_eq, not_or, Nat.not_lt] at h
    constructor
    · intro _
      constructor
      · exact h.1
      · omega
    · intro _
      rfl

/-- C7, witness: validation of a concrete number via the theorem. -/
theorem C7_witness :
    validate_phone_number "11988887777" = true ↔
      10 ≤ (cleanNumber "11988887777").length ∧
        (cleanNumber "11988887777").length ≤ 15 :=
  C7_validate "11988887777"

/-- C8: for a record whose number validates, the attempt is classified
`Mensagem vazia` exactly when the message is empty after trimming. -/
theorem C8_empty_message (env : BrowserEnv) (n m : String)
    (hn : validate_phone_number n = true) :
    ((send_single_message env n m).1.status = "Mensagem vazia") ↔
      pyStrip m = "" := by
  by_cases hm : pyStrip m = ""
  · rw [send_empty env n m hn hm]
    exact ⟨fun _ => hm, fun _ => rfl⟩
  · rw [send_fst_valid env n m hn hm]
    rcases raisedExc env with _ | e
    · constructor
      · intro h
        exact absurd h (by decide)
      · intro h
        exact absurd h hm
    · constructor
      · intro h
        exact absurd h (classify_status_ne e "Mensagem vazia" (by decide) (by decide))
      · intro h
        exact absurd h hm

/-- C8, witness: a whitespace-only message at a valid number. -/
theorem C8_witness :
    ((send_single_message envOk "11988887777" "  ").1.status = "Mensagem vazia") ↔
      pyStrip "  " = "" :=
  C8_empty_message envOk "11988887777" "  " (by decide)

/-- C9: a record that fails validation (invalid number or empty message)
returns without any browser interaction — its effect trace is empty, so no
navigation is issued and the session is untouched — and its status is one
of the two local-validation statuses. -/
theorem C9_no_browser (env : BrowserEnv) (n m : String)
    (h : validate_phone_number n = false ∨ pyStrip m = "") :
    (send_single_message env n m).2 = [] ∧
    ((send_single_message env n m).1.status = "Número inválido" ∨
      (send_single_message env n m).1.status = "Mensagem vazia") := by
  rcases h with h | h
  · rw [send_invalid env n m h]
    exact ⟨rfl, Or.inl rfl⟩
  · by_cases hn : validate_phone_number n = true
    · rw [send_empty env n m hn h]
      exact ⟨rfl, Or.inr rfl⟩
    · rw [send_invalid env n m (validate_eq_false n hn)]
      exact ⟨rfl, Or.inl rfl⟩

/-- C9, witness: an invalid number produces no browser effects. -/
theorem C9_witness :
    (send_single_message envOk "123" "ola").2 = [] :=
  (C9_no_browser envOk "123" "ola" (Or.inl (by decide))).1

/-- C10, counterexample: when a run starts on a store that already carries
the Sent status (possible because `load_excel` keeps a pre-existing
`Status` column) and is cancelled before the first record, the succeeded
count is 0 while one record's final status is Sent — so the claimed batch
equality fails without a freshness assumption. -/
theorem C10_counterexample :
    (run_batch (fun _ => envOk) (fun _ => true) [preSentRecord]).success_count =
      0 ∧
    ((run_batch (fun _ => envOk) (fun _ => true) [preSentRecord]).out.filter
      isSent).length = 1 := by
  decide

/-- C10 (amended): a single attempt's success flag is true exactly when its
status is `'Mensagem Enviada'`; and provided no record already has the Sent
status when the run begins (as after a fresh load, which initializes the
status column empty), the run's succeeded count equals the number of
records whose final status is Sent, and the failed count equals attempted
minus succeeded. -/
theorem C10_success_iff_sent (envOf : Nat → BrowserEnv) (cancelled : Nat → Bool)
    (records : List Record)
    (hfresh : ∀ r ∈ records, r.status ≠ SENT_STATUS) :
    (∀ (env : BrowserEnv) (n m : String),
      (send_single_message env n m).1.success = true ↔
        (send_single_message env n m).1.status = SENT_STATUS) ∧
    (run_batch envOf cancelled records).success_count =
      ((run_batch envOf cancelled records).out.filter isSent).length ∧
    (run_batch envOf cancelled records).success_count +
        (run_batch envOf cancelled records).error_count =
      (run_batch envOf cancelled records).attempted ∧
    (run_batch envOf cancelled records).error_count =
      (run_batch envOf cancelled records).attempted -
        (run_batch envOf cancelled records).success_count := by
  obtain ⟨h1, h2⟩ := runFrom_counts envOf cancelled records 0 hfresh
  refine ⟨send_success_iff_sent, h1, h2, ?_⟩
  show (runFrom envOf cancelled 0 records).error_count =
    (runFrom envOf cancelled 0 records).attempted -
      (runFrom envOf cancelled 0 records).success_count
  omega

/-- C10, witness: the count equalities on a fresh two-record run. -/
theorem C10_witness :
    (run_batch (fun _ => envOk) (fun _ => false) demoRecords).success_count +
        (run_batch (fun _ => envOk) (fun _ => false) demoRecords).error_count =
      (run_batch (fun _ => envOk) (fun _ => false) demoRecords).attempted :=
  (C10_success_iff_sent (fun _ => envOk) (fun _ => false) demoRecords
    (by decide)).2.2.1

end CASDbot
